import Mathlib

/-!
Shallow embedding of the draw-without-replacement and reveal-animation core of
src/app/page.tsx (Marvel Rivals Randomizer), together with proofs of the
specified properties.

Conventions of the embedding:
* JavaScript objects become Lean structures; object identity coincides with
  structural equality here because every roster entry is a distinct literal.
* Milliseconds-since-epoch timestamps are naturals; animation timestamps and
  pixel offsets are rationals (the source uses IEEE doubles on values where no
  rounding occurs in the quantities the claims speak about).
* Randomness is passed in explicitly: Math.floor(Math.random() * n) is a
  caller-supplied natural reduced mod n, and the Fisher-Yates-free shuffle
  [...pool].sort(() => 0.5 - Math.random()) is a caller-supplied list that the
  theorems quantify over (for concrete instances the identity permutation is a
  possible outcome of that sort call).
-/

/-- Character record from src/app/page.tsx (interface Character). -/
structure Character where
  name : String
  defaultImage : Option String := none
  challenges : List String := []
deriving DecidableEq

/-- History record from src/app/page.tsx (interface HistoryEntry). -/
structure HistoryEntry where
  characterName : String
  timestamp : Nat
deriving DecidableEq

/-- The literal CHARACTER_ROSTER array, in source order, before the sort call.
Challenge texts are kept verbatim (apostrophe written as an escape). -/
def CHARACTER_ROSTER_literal : List Character := [
  { name := "Adam Warlock", defaultImage := some "https://static.dotgg.gg/rivals/characters/adam-warlock-portrait.webp", challenges := ["No Soul Gem Healing or Revival. Support without healing or resurrection abilities."] },
  { name := "Black Panther", defaultImage := some "https://static.dotgg.gg/rivals/characters/black-panther-portrait.webp", challenges := ["No Vibranium Claws or Pounce. Melee combat without enhanced weapons or mobility."] },
  { name := "Black Widow", defaultImage := some "https://static.dotgg.gg/rivals/characters/black-widow-portrait.webp", challenges := ["No Invisibility or Stealth Takedown. Engage without stealth or surprise attacks."] },
  { name := "Captain America", defaultImage := some "https://static.dotgg.gg/rivals/characters/captain-america-portrait.webp", challenges := ["No Shield Throw or Shield Ricochet. Adapt by relying solely on melee combat."] },
  { name := "Cloak & Dagger", defaultImage := some "https://static.dotgg.gg/rivals/characters/cloak-dagger-portrait.webp", challenges := ["No Darkforce Teleportation or Lightforce Blasts. Combat without mobility or ranged attacks."] },
  { name := "Doctor Strange", defaultImage := some "https://static.dotgg.gg/rivals/characters/doctor-strange-portrait.webp", challenges := ["No Portals or Time Manipulation. Combat without spatial or temporal control."] },
  { name := "Emma Frost", defaultImage := some "https://static.dotgg.gg/rivals/characters/emma-frost-portrait.webp", challenges := ["No Diamond Form or Telepathic Blast. Fight without enhanced durability or psychic attacks.", "No Diamond Form or Telepathic Shield. Support without enhanced durability or psychic defense."] },
  { name := "Groot", defaultImage := some "https://static.dotgg.gg/rivals/characters/groot-portrait.webp" },
  { name := "Hawkeye", defaultImage := some "https://static.dotgg.gg/rivals/characters/hawkeye-portrait.webp", challenges := ["No Explosive Arrows or Grappling Hook. Engage without ranged explosives or mobility tools."] },
  { name := "Hela", defaultImage := some "https://static.dotgg.gg/rivals/characters/hela-portrait.webp" },
  { name := "Hulk", defaultImage := some "https://static.dotgg.gg/rivals/characters/bruce-banner-portrait.webp", challenges := ["No Leap or Ground Slam. Engage enemies without mobility or area control."] },
  { name := "Human Torch", defaultImage := some "https://static.dotgg.gg/rivals/characters/human-torch-portrait.webp" },
  { name := "Invisible Woman", defaultImage := some "https://static.dotgg.gg/rivals/characters/invisible-woman-portrait.webp", challenges := ["No Force Field or Invisibility. Support without protection or stealth."] },
  { name := "Iron Fist", defaultImage := some "https://static.dotgg.gg/rivals/characters/iron-fist-portrait.webp", challenges := ["No Chi Strike or Dragon\x27s Defense. Combat without energy-based attacks or parrying."] },
  { name := "Iron Man", defaultImage := some "https://static.dotgg.gg/rivals/characters/iron-man-portrait.webp", challenges := ["No Repulsor Blasts or Flight. Fight grounded without ranged attacks."] },
  { name := "Jeff the Land Shark", defaultImage := some "https://static.dotgg.gg/rivals/characters/jeff-the-land-shark-portrait.webp", challenges := ["No Burrowing or Shark Bite. Combat without mobility or enhanced melee attacks."] },
  { name := "Loki", defaultImage := some "https://static.dotgg.gg/rivals/characters/loki-portrait.webp", challenges := ["No Illusions or Teleportation. Engage without deception or mobility."] },
  { name := "Luna Snow", defaultImage := some "https://static.dotgg.gg/rivals/characters/luna-snow-portrait.webp", challenges := ["No Ice Wall or Frostbite. Combat without crowd control or elemental attacks."] },
  { name := "Magik", defaultImage := some "https://static.dotgg.gg/rivals/characters/magik-portrait.webp", challenges := ["No Soulsword or Teleportation. Combat without mystical weapon or mobility."] },
  { name := "Magneto", defaultImage := some "https://static.dotgg.gg/rivals/characters/magneto-portrait.webp", challenges := ["No Metal Manipulation or Magnetic Shield. Combat without control over metal objects."] },
  { name := "Mantis", defaultImage := some "https://static.dotgg.gg/rivals/characters/mantis-portrait.webp", challenges := ["No Spore Slumber or Life Orb Healing. Support without crowd control or healing."] },
  { name := "Mister Fantastic", defaultImage := some "https://static.dotgg.gg/rivals/characters/mister-fantastic-portrait.webp" },
  { name := "Moon Knight", defaultImage := some "https://static.dotgg.gg/rivals/characters/moon-knight-portrait.webp", challenges := ["No Moon Darts or Leap Attack. Engage without ranged or mobility abilities."] },
  { name := "Namor", defaultImage := some "https://static.dotgg.gg/rivals/characters/namor-portrait.webp", challenges := ["No Water Manipulation or Hydrokinetic Shield. Combat without aquatic abilities."] },
  { name := "Peni Parker", defaultImage := some "https://static.dotgg.gg/rivals/characters/peni-parker-portrait.webp", challenges := ["No Mech Suit or Spider-Bots. Combat without robotic assistance."] },
  { name := "Phoenix", defaultImage := some "https://static.dotgg.gg/rivals/characters/phoenix-portrait.webp", challenges := ["No Resurrection or Fire Manipulation. Support without revival or elemental control."] },
  { name := "Psylocke", defaultImage := some "https://static.dotgg.gg/rivals/characters/psylocke-portrait.webp", challenges := ["No Psionic Blade or Teleportation. Combat without psychic weapon or mobility."] },
  { name := "The Punisher", defaultImage := some "https://static.dotgg.gg/rivals/characters/the-punisher-portrait.webp", challenges := ["No Explosives or Guns. Combat without ranged weapons or area damage."] },
  { name := "The Thing", defaultImage := some "https://static.dotgg.gg/rivals/characters/the-thing-portrait.webp", challenges := ["No Rock Throw or Earthquake Slam. Combat without ranged or area control abilities."] },
  { name := "Rocket Raccoon", defaultImage := some "https://static.dotgg.gg/rivals/characters/rocket-raccoon-portrait.webp", challenges := ["No Jetpack or Explosive Gadgets. Support without aerial mobility or area damage."] },
  { name := "Scarlet Witch", defaultImage := some "https://static.dotgg.gg/rivals/characters/scarlet-witch-portrait.webp", challenges := ["No Chaos Magic or Reality Warping. Support without altering reality or elemental attacks."] },
  { name := "Squirrel Girl", defaultImage := some "https://static.dotgg.gg/rivals/characters/squirrel-girl-portrait.webp", challenges := ["No Squirrel Summon or Acorn Bombs. Support without minions or explosive devices."] },
  { name := "Spider-Man", defaultImage := some "https://static.dotgg.gg/rivals/characters/spider-man-portrait.webp" },
  { name := "Star-Lord", defaultImage := some "https://static.dotgg.gg/rivals/characters/star-lord-portrait.webp", challenges := ["No Jet Boots or Element Guns. Support without mobility or elemental attacks."] },
  { name := "Storm", defaultImage := some "https://static.dotgg.gg/rivals/characters/storm-portrait.webp", challenges := ["No Lightning or Hurricane. Combat without elemental abilities."] },
  { name := "Thor", defaultImage := some "https://static.dotgg.gg/rivals/characters/thor-portrait.webp", challenges := ["No Mjolnir Throw or Lightning Strike. Engage in close combat without ranged or AoE attacks."] },
  { name := "Ultron", defaultImage := some "https://static.dotgg.gg/rivals/characters/ultron-portrait.webp", challenges := ["No Nano Ray or Drones. Combat without advanced technology or support."] },
  { name := "Venom", defaultImage := some "https://static.dotgg.gg/rivals/characters/venom-portrait.webp", challenges := ["No Symbiote Tendrils or Webbing. Melee combat only, without ranged or crowd control abilities."] },
  { name := "Winter Soldier", defaultImage := some "https://static.dotgg.gg/rivals/characters/winter-soldier-portrait.webp", challenges := ["No Bionic Arm or Kraken Impact. Engage without enhanced strength or mobility."] },
  { name := "Wolverine", defaultImage := some "https://static.dotgg.gg/rivals/characters/wolverine-portrait.webp", challenges := ["No Healing Factor or Claw Dash. Fight without regeneration or mobility."] }]

/-- The roster as the program sees it: the literal array sorted by name.
The source sorts with localeCompare; code-point order on the name characters
is used here, a permutation either way, and every claim below depends only on
membership. -/
def CHARACTER_ROSTER : List Character :=
  CHARACTER_ROSTER_literal.insertionSort
    (fun a b => a.name.data < b.name.data ∨ a.name.data = b.name.data)

/-- Names occurring in the roster. -/
def rosterNames : List String := CHARACTER_ROSTER.map Character.name

/-- The in-memory state of the Home component that the claims are about:
history (persisted), committed selection, spinning flag and spin target. -/
structure AppState where
  historyS : List HistoryEntry
  playerSSelection : Option Character
  isSpinningS : Bool
  targetCharacterS : Option Character
deriving DecidableEq

/-- Initial state: useLocalStorage default [] for history, null selection and
target, not spinning. -/
def initialState : AppState :=
  { historyS := [], playerSSelection := none, isSpinningS := false,
    targetCharacterS := none }

/-- The availableCharacters useMemo: roster entries whose name is not among the
history names (the source collects the names in a Set and filters). -/
def availableCharacters (historyS : List HistoryEntry) : List Character :=
  let combinedHistoryNames := historyS.map (fun h => h.characterName)
  CHARACTER_ROSTER.filter (fun char => !combinedHistoryNames.contains char.name)

/-- The handleSpinEnd callback: with no target it returns early; otherwise it
prepends a new history entry, commits the selection and stops spinning.
The wall-clock Date.now() value is passed in as now. -/
def handleSpinEnd (now : Nat) (s : AppState) : AppState :=
  match s.targetCharacterS with
  | none => s
  | some targetCharacter =>
    let newEntry : HistoryEntry :=
      { characterName := targetCharacter.name, timestamp := now }
    { s with playerSSelection := some targetCharacter,
             historyS := newEntry :: s.historyS,
             isSpinningS := false }

/-- The handleSpin callback: refuses while spinning or with an empty pool,
otherwise picks the pool entry at Math.floor(Math.random() * length), modelled
as a caller-supplied natural r reduced mod the pool length, and starts the
spin. -/
def handleSpin (r : Nat) (s : AppState) : AppState :=
  if s.isSpinningS then s
  else
    let possibleChars := availableCharacters s.historyS
    if h : possibleChars.length = 0 then s
    else
      let selected :=
        possibleChars.get ⟨r % possibleChars.length,
          Nat.mod_lt r (Nat.pos_of_ne_zero h)⟩
      { s with targetCharacterS := some selected, isSpinningS := true }

/-- The handleSkip callback: clears selection and target and stops spinning. -/
def handleSkip (s : AppState) : AppState :=
  { s with playerSSelection := none, targetCharacterS := none,
           isSpinningS := false }

/-- The purgeAllHistory callback: clears history, selection and target and
stops spinning. -/
def purgeAllHistory (s : AppState) : AppState :=
  { s with historyS := [], playerSSelection := none, targetCharacterS := none,
           isSpinningS := false }

/-- States reachable by the user-facing operations from the initial state.
The reload constructor models closing and reopening the page: useLocalStorage
hands back exactly the history the previous session persisted, while the
transient useState fields restart at their defaults. -/
inductive Reachable : AppState → Prop
  | init : Reachable initialState
  | spin (r : Nat) {s : AppState} : Reachable s → Reachable (handleSpin r s)
  | spinEnd (now : Nat) {s : AppState} :
      Reachable s → Reachable (handleSpinEnd now s)
  | skip {s : AppState} : Reachable s → Reachable (handleSkip s)
  | purge {s : AppState} : Reachable s → Reachable (purgeAllHistory s)
  | reload {s : AppState} : Reachable s →
      Reachable { historyS := s.historyS, playerSSelection := none,
                  isSpinningS := false, targetCharacterS := none }

/-- Auxiliary invariant: any set spin target is a roster entry. -/
def TargetOK (s : AppState) : Prop :=
  ∀ t : Character, s.targetCharacterS = some t → t ∈ CHARACTER_ROSTER

/-- Auxiliary invariant: every history name is a roster name. -/
def HistoryOK (s : AppState) : Prop :=
  ∀ e ∈ s.historyS, e.characterName ∈ rosterNames

/-- Pixel height of one reel item (the h-20 row), from SlotMachine. -/
def REEL_ITEM_HEIGHT : ℚ := 80

/-- Spin duration constant from the animate closure. -/
def SPIN_DURATION_MS : ℚ := 3000

/-- Placeholder entry from SlotMachine (const fallbackCharacter). -/
def fallbackCharacter : Character := { name := "?" }

/-- Easing curve from SlotMachine: t less than one half gives 4t³, otherwise
1 − (−2t + 2)³ / 2. -/
def easeInOutCubic (t : ℚ) : ℚ :=
  if t < 1 / 2 then 4 * t * t * t else 1 - (-2 * t + 2) ^ 3 / 2

/-- Reel base from the SlotMachine spin effect: the shuffled pool with the
target spliced in at targetIndex (shuffled.slice(0, i), target,
shuffled.slice(i)). -/
def buildReelWithTarget (shuffled : List Character)
    (targetCharacter : Character) (targetIndex : Nat) : List Character :=
  shuffled.take targetIndex ++ targetCharacter :: shuffled.drop targetIndex

/-- Extended reel from the spin effect: three copies of the base reel. -/
def extendReel (reelWithTarget : List Character) : List Character :=
  reelWithTarget ++ reelWithTarget ++ reelWithTarget

/-- Scanner behind jsIndexOfFrom, carrying the absolute index. -/
def indexOfAux (x : Character) : List Character → Nat → Int
  | [], _ => -1
  | c :: rest, i => if c = x then (i : Int) else indexOfAux x rest (i + 1)

/-- JavaScript Array.indexOf with a start argument, as the spin effect calls
it: the first index at or after the start whose element equals x, and -1 when
there is none. -/
def jsIndexOfFrom (l : List Character) (x : Character) (start : Nat) : Int :=
  indexOfAux x (l.drop start) start

/-- Resting offset from the spin effect: extendedReel.indexOf(target,
reelWithTarget.length) times the item height. -/
def finalPositionOf (reelWithTarget : List Character)
    (targetCharacter : Character) : ℚ :=
  (jsIndexOfFrom (extendReel reelWithTarget) targetCharacter
      reelWithTarget.length : ℚ) * REEL_ITEM_HEIGHT

/-- Observable effects of one animation run: the last translationY written and
how many times onSpinEnd was invoked. -/
structure AnimState where
  translationY : ℚ
  spinEndCalls : Nat
deriving DecidableEq

/-- The animate closure of SlotMachine, applied to the timestamps of the
frames the browser delivers. Each frame computes eased progress times the
resting offset and stores it; the first frame at progress one or beyond stores
the resting offset exactly, invokes onSpinEnd and schedules no further frame
(later timestamps of the run are dropped). -/
def animate (startTime finalPosition : ℚ) :
    List ℚ → AnimState → AnimState
  | [], st => st
  | timestamp :: rest, st =>
    let elapsedTime := timestamp - startTime
    let progress := elapsedTime / SPIN_DURATION_MS
    let easedProgress := easeInOutCubic progress
    let currentPosition := easedProgress * finalPosition
    if progress < 1 then
      animate startTime finalPosition rest
        { st with translationY := currentPosition }
    else
      { translationY := finalPosition, spinEndCalls := st.spinEndCalls + 1 }

/-- Whole spin run: startTime is the first delivered timestamp (the source
initialises startTime on the first frame), translationY starts at 0 and
onSpinEnd has not run. -/
def runSpin (finalPosition : ℚ) (frames : List ℚ) : AnimState :=
  match frames with
  | [] => { translationY := 0, spinEndCalls := 0 }
  | t0 :: rest =>
      animate t0 finalPosition (t0 :: rest)
        { translationY := 0, spinEndCalls := 0 }

/-- Recorded from the source spin effect: the useEffect body registers
requestAnimationFrame(animate) and returns no cleanup function, and the file
contains no cancelAnimationFrame or clearTimeout call, so nothing is cancelled
when the component is torn down or the effect re-runs. -/
def spinEffectRegistersCleanup : Bool := false

/-- Frame delivery across a teardown: a pending requestAnimationFrame callback
stops firing only if a registered cleanup cancels it; with no cleanup every
frame of the run is still delivered. -/
def framesDelivered (teardownTime : ℚ) (frames : List ℚ) : List ℚ :=
  if spinEffectRegistersCleanup then
    frames.filter (fun t => decide (t < teardownTime))
  else frames

/-- History covering every roster name except Adam Warlock, the first entry of
the sorted roster; the derived pool is then a single entry. -/
def historyAllButAdam : List HistoryEntry :=
  (CHARACTER_ROSTER.drop 1).map
    (fun c => { characterName := c.name, timestamp := 0 })

/-- Concrete mid-spin state used by the C3 witness. -/
def grootSpinState : AppState :=
  { historyS := [], playerSSelection := none, isSpinningS := true,
    targetCharacterS := some { name := "Groot" } }

/-- Concrete spinning state used by the C4 witness. -/
def midSpinState : AppState :=
  { historyS := [], playerSSelection := none, isSpinningS := true,
    targetCharacterS := none }

section BasicLemmas

/-- Membership characterisation of the derived pool. -/
lemma mem_availableCharacters (hist : List HistoryEntry) (c : Character) :
    c ∈ availableCharacters hist ↔
      c ∈ CHARACTER_ROSTER ∧ ∀ h ∈ hist, h.characterName ≠ c.name := by
  simp [availableCharacters, List.mem_filter]

/-- The pool is a sublist of the roster. -/
lemma availableCharacters_subset (hist : List HistoryEntry) :
    availableCharacters hist ⊆ CHARACTER_ROSTER := by
  intro c hc
  exact ((mem_availableCharacters hist c).mp hc).1

/-- With empty history the pool is the whole roster. -/
lemma availableCharacters_nil : availableCharacters [] = CHARACTER_ROSTER := by
  simp [availableCharacters]

/-- The pool is empty exactly when every roster name already occurs in the
history. -/
lemma availableCharacters_eq_nil_iff (hist : List HistoryEntry) :
    availableCharacters hist = [] ↔
      ∀ c ∈ CHARACTER_ROSTER,
        c.name ∈ hist.map HistoryEntry.characterName := by
  simp [availableCharacters, List.filter_eq_nil_iff]

end BasicLemmas

/-- C1: for every history list, a roster entry is in the derived available
pool exactly when its name is the name of no history entry; the pool is the
roster minus the history names, and because the pool is recomputed from the
history alone this holds after any sequence of draw/commit/skip/purge
operations. -/
theorem availablePool_eq_roster_minus_history
    (hist : List HistoryEntry) (c : Character) :
    c ∈ availableCharacters hist ↔
      c ∈ CHARACTER_ROSTER ∧ ∀ h ∈ hist, h.characterName ≠ c.name :=
  mem_availableCharacters hist c

/-- C3: with a target set, the spin-completion handler prepends the new entry
built from the target name and the current time to the history (all prior
entries kept in order), commits the selection to the target, and stops
spinning. -/
theorem handleSpinEnd_commits (now : Nat) (s : AppState) (t : Character)
    (ht : s.targetCharacterS = some t) :
    (handleSpinEnd now s).historyS =
        { characterName := t.name, timestamp := now } :: s.historyS ∧
      (handleSpinEnd now s).playerSSelection = some t ∧
      (handleSpinEnd now s).isSpinningS = false := by
  simp [handleSpinEnd, ht]

/-- Witness for C3 at a concrete state holding a target. -/
theorem handleSpinEnd_commits_witness :
    (handleSpinEnd 7 grootSpinState).historyS =
        [{ characterName := "Groot", timestamp := 7 }] ∧
      (handleSpinEnd 7 grootSpinState).playerSSelection =
        some { name := "Groot" } ∧
      (handleSpinEnd 7 grootSpinState).isSpinningS = false :=
  handleSpinEnd_commits 7 grootSpinState { name := "Groot" } rfl

/-- C4: a draw triggered with an empty pool or while already spinning is a
no-op: the whole state, history, selection, target and spinning flag alike,
is unchanged and no spin starts. -/
theorem handleSpin_noop (r : Nat) (s : AppState)
    (h : availableCharacters s.historyS = [] ∨ s.isSpinningS = true) :
    handleSpin r s = s := by
  rcases h with h | h
  · unfold handleSpin
    split
    · rfl
    · have : (availableCharacters s.historyS).length = 0 := by
        rw [h]; rfl
      simp [this]
  · unfold handleSpin
    simp [h]

/-- Witness for C4 at a concrete spinning state. -/
theorem handleSpin_noop_witness :
    handleSpin 5 midSpinState = midSpinState :=
  handleSpin_noop 5 midSpinState (Or.inr rfl)

/-- C6: skip clears the transient draw state, selection, target and spinning
flag, and leaves the history untouched, so an entry committed by an earlier
completed spin stays recorded. -/
theorem handleSkip_clears_transient_only (s : AppState) :
    (handleSkip s).historyS = s.historyS ∧
      (handleSkip s).playerSSelection = none ∧
      (handleSkip s).targetCharacterS = none ∧
      (handleSkip s).isSpinningS = false :=
  ⟨rfl, rfl, rfl, rfl⟩

/-- C7: purge empties the history in one state update, after which the derived
pool is the full roster, and fully resets the transient draw state; the passed
state is replaced wholesale, with no partially-cleared state observable. -/
theorem purgeAllHistory_resets (s : AppState) :
    (purgeAllHistory s).historyS = [] ∧
      availableCharacters (purgeAllHistory s).historyS = CHARACTER_ROSTER ∧
      (purgeAllHistory s).playerSSelection = none ∧
      (purgeAllHistory s).targetCharacterS = none ∧
      (purgeAllHistory s).isSpinningS = false :=
  ⟨rfl, availableCharacters_nil, rfl, rfl, rfl⟩

/-- C10: the spin-completion handler invoked with no target returns early and
changes nothing. -/
theorem handleSpinEnd_noop_of_no_target (now : Nat) (s : AppState)
    (ht : s.targetCharacterS = none) : handleSpinEnd now s = s := by
  simp [handleSpinEnd, ht]

/-- Witness for C10 at a concrete state with no target. -/
theorem handleSpinEnd_noop_of_no_target_witness :
    handleSpinEnd 3 initialState = initialState :=
  handleSpinEnd_noop_of_no_target 3 initialState rfl

section ReelLemmas

/-- Scanning an append finds the hit inside the left part when there is one. -/
lemma indexOfAux_append_of_mem (x : Character) (l₁ l₂ : List Character)
    (h : x ∈ l₁) : ∀ i : Nat, indexOfAux x (l₁ ++ l₂) i = indexOfAux x l₁ i := by
  induction l₁ with
  | nil => cases h
  | cons c rest ih =>
    intro i
    by_cases hc : c = x
    · simp [indexOfAux, hc]
    · have hx : x ∈ rest := by
        rcases List.mem_cons.mp h with h' | h'
        · exact absurd h'.symm hc
        · exact h'
      simp [indexOfAux, hc, ih hx]

/-- A successful scan returns the absolute index of an occurrence. -/
lemma indexOfAux_spec (x : Character) (l : List Character) (h : x ∈ l) :
    ∀ i : Nat, ∃ k : Nat, indexOfAux x l i = ((i + k : Nat) : Int) ∧
      k < l.length ∧ l.getD k fallbackCharacter = x := by
  induction l with
  | nil => cases h
  | cons c rest ih =>
    intro i
    by_cases hc : c = x
    · exact ⟨0, by simp [indexOfAux, hc], by simp, by simp [hc]⟩
    · have hx : x ∈ rest := by
        rcases List.mem_cons.mp h with h' | h'
        · exact absurd h'.symm hc
        · exact h'
      obtain ⟨k, hk1, hk2, hk3⟩ := ih hx (i + 1)
      refine ⟨k + 1, ?_, by simpa using Nat.succ_lt_succ hk2, by simpa using hk3⟩
      have harith : (i + (k + 1) : Nat) = (i + 1 + k : Nat) := by omega
      simp [indexOfAux, hc, harith, hk1]

/-- The base reel contains the target by construction. -/
lemma targetCharacter_mem_buildReel (shuffled : List Character)
    (targetCharacter : Character) (targetIndex : Nat) :
    targetCharacter ∈ buildReelWithTarget shuffled targetCharacter targetIndex := by
  simp [buildReelWithTarget]

/-- The indexOf call of the spin effect finds the target inside the middle
copy of the extended reel: at an index of the form length + k with k below the
base length, and the entry there is the target. -/
lemma final_index_in_tail (rwt : List Character) (t : Character)
    (ht : t ∈ rwt) :
    ∃ k : Nat, jsIndexOfFrom (extendReel rwt) t rwt.length =
        ((rwt.length + k : Nat) : Int) ∧ k < rwt.length ∧
      (extendReel rwt).getD (rwt.length + k) fallbackCharacter = t := by
  have hdrop : (extendReel rwt).drop rwt.length = rwt ++ rwt := by
    show ((rwt ++ rwt) ++ rwt).drop rwt.length = rwt ++ rwt
    rw [List.append_assoc]
    exact List.drop_left rwt (rwt ++ rwt)
  have hj : jsIndexOfFrom (extendReel rwt) t rwt.length =
      indexOfAux t (rwt ++ rwt) rwt.length := by
    rw [jsIndexOfFrom, hdrop]
  rw [indexOfAux_append_of_mem t rwt rwt ht] at hj
  obtain ⟨k, hk1, hk2, hk3⟩ := indexOfAux_spec t rwt ht rwt.length
  refine ⟨k, hj.trans hk1, hk2, ?_⟩
  have hgd : (extendReel rwt).getD (rwt.length + k) fallbackCharacter =
      (rwt ++ rwt).getD k fallbackCharacter := by
    show ((rwt ++ rwt) ++ rwt).getD (rwt.length + k) fallbackCharacter = _
    rw [List.append_assoc,
      List.getD_append_right rwt (rwt ++ rwt) fallbackCharacter _
        (Nat.le_add_right _ _),
      Nat.add_sub_cancel_left]
  rw [hgd, List.getD_append rwt rwt fallbackCharacter k hk2, hk3]

end ReelLemmas

section AnimationLemmas

/-- Once some delivered frame reaches progress one, the run ends snapped to the
resting offset with exactly one further onSpinEnd invocation. -/
lemma animate_settles (start fp : ℚ) (frames : List ℚ)
    (h : ∃ t ∈ frames, 1 ≤ (t - start) / SPIN_DURATION_MS) :
    ∀ st : AnimState, animate start fp frames st =
      { translationY := fp, spinEndCalls := st.spinEndCalls + 1 } := by
  induction frames with
  | nil => simp at h
  | cons t rest ih =>
    intro st
    rcases h with ⟨u, hu, hge⟩
    by_cases hp : (t - start) / SPIN_DURATION_MS < 1
    · have hu' : u ∈ rest := by
        rcases List.mem_cons.mp hu with h' | h'
        · subst h'; linarith
        · exact h'
      simp only [animate, hp, if_true]
      exact ih ⟨u, hu', hge⟩ _
    · simp [animate, hp]

/-- runSpin version of the settling lemma, starting from the initial
animation state. -/
lemma runSpin_settles (fp : ℚ) (t0 : ℚ) (rest : List ℚ)
    (h : ∃ t ∈ t0 :: rest, 1 ≤ (t - t0) / SPIN_DURATION_MS) :
    runSpin fp (t0 :: rest) = { translationY := fp, spinEndCalls := 1 } := by
  have := animate_settles t0 fp (t0 :: rest) h
    { translationY := 0, spinEndCalls := 0 }
  simpa [runSpin] using this

end AnimationLemmas

/-- C2: once the delivered frames of a spin run reach progress one, the run
snaps translationY exactly to the resting offset, that offset is a reel index
times the item height at which the extended reel holds the target entry, and
the completion callback runs exactly once for the run. -/
theorem spin_settles_on_target (shuffled : List Character)
    (targetCharacter : Character) (targetIndex : Nat) (t0 : ℚ)
    (rest : List ℚ)
    (hdone : ∃ t ∈ t0 :: rest, 1 ≤ (t - t0) / SPIN_DURATION_MS) :
    (runSpin (finalPositionOf
        (buildReelWithTarget shuffled targetCharacter targetIndex)
        targetCharacter) (t0 :: rest)).translationY =
      finalPositionOf
        (buildReelWithTarget shuffled targetCharacter targetIndex)
        targetCharacter ∧
    (runSpin (finalPositionOf
        (buildReelWithTarget shuffled targetCharacter targetIndex)
        targetCharacter) (t0 :: rest)).spinEndCalls = 1 ∧
    ∃ k : Nat,
      finalPositionOf
          (buildReelWithTarget shuffled targetCharacter targetIndex)
          targetCharacter = (k : ℚ) * REEL_ITEM_HEIGHT ∧
      (extendReel
          (buildReelWithTarget shuffled targetCharacter targetIndex)).getD k
        fallbackCharacter = targetCharacter := by
  have hrun := runSpin_settles
    (finalPositionOf (buildReelWithTarget shuffled targetCharacter targetIndex)
      targetCharacter) t0 rest hdone
  refine ⟨by rw [hrun], by rw [hrun], ?_⟩
  obtain ⟨k, hk1, _, hk3⟩ := final_index_in_tail
    (buildReelWithTarget shuffled targetCharacter targetIndex) targetCharacter
    (targetCharacter_mem_buildReel shuffled targetCharacter targetIndex)
  refine ⟨(buildReelWithTarget shuffled targetCharacter targetIndex).length + k,
    ?_, hk3⟩
  rw [finalPositionOf, hk1]
  push_cast
  ring

/-- Counterexample to C8 as stated: a history covering all but one roster name
leaves a pool of one entry, fewer than the minimum usable size of three the
claim names, yet the spin effect still builds the reel from that pool alone
(here with the identity shuffle outcome and target index 0): Black Panther is
a roster entry but appears nowhere in the extended reel, so no fallback to the
full roster happens. -/
theorem reel_no_roster_fallback_counterexample :
    (availableCharacters historyAllButAdam).length < 3 ∧
      CHARACTER_ROSTER.getD 1 fallbackCharacter ∈ CHARACTER_ROSTER ∧
      CHARACTER_ROSTER.getD 1 fallbackCharacter ∉
        extendReel (buildReelWithTarget (availableCharacters historyAllButAdam)
          (CHARACTER_ROSTER.getD 0 fallbackCharacter) 0) := by
  decide

/-- C8 as amended: the reel base is the shuffled pool with the target spliced
in at the random index, a permutation of the target consed onto the pool
whatever the pool size (no fallback to the roster), the working reel is three
copies of that base, and the resting index the effect computes for the target
lies in the middle copy of the three: at least one full copy before it and one
after, which is the tail room the animation decelerates through. -/
theorem reel_built_from_pool_target_in_tail (shuffled : List Character)
    (targetCharacter : Character) (targetIndex : Nat) :
    (buildReelWithTarget shuffled targetCharacter targetIndex).Perm
        (targetCharacter :: shuffled) ∧
      ((buildReelWithTarget shuffled targetCharacter targetIndex).length :
          Int) ≤
        jsIndexOfFrom
          (extendReel (buildReelWithTarget shuffled targetCharacter
            targetIndex)) targetCharacter
          (buildReelWithTarget shuffled targetCharacter targetIndex).length ∧
      jsIndexOfFrom
          (extendReel (buildReelWithTarget shuffled targetCharacter
            targetIndex)) targetCharacter
          (buildReelWithTarget shuffled targetCharacter targetIndex).length <
        2 * ((buildReelWithTarget shuffled targetCharacter
          targetIndex).length : Int) := by
  obtain ⟨k, hk1, hk2, _⟩ := final_index_in_tail
    (buildReelWithTarget shuffled targetCharacter targetIndex) targetCharacter
    (targetCharacter_mem_buildReel shuffled targetCharacter targetIndex)
  refine ⟨?_, ?_, ?_⟩
  · have hperm :
        shuffled.take targetIndex ++ targetCharacter ::
            shuffled.drop targetIndex |>.Perm
          (targetCharacter ::
            (shuffled.take targetIndex ++ shuffled.drop targetIndex)) :=
      List.perm_middle
    rw [buildReelWithTarget]
    simpa [List.take_append_drop] using hperm
  · rw [hk1]; push_cast; omega
  · rw [hk1]; push_cast; omega

/-- C9 evaluation at the failing input: a spin run with resting offset 80 is
torn down at t = 1000 while frames arrive at 0, 500, 1500 and 3200 ms. The
effect registered no cleanup, so every frame is still delivered, the frame at
1500 (after teardown) still writes a position (40), and the completion
callback of the abandoned run still fires once, where the claim demands no
callback and no position update after teardown. -/
theorem abandoned_run_callback_still_fires :
    framesDelivered 1000 [0, 500, 1500, 3200] = [0, 500, 1500, 3200] ∧
      (runSpin 80 (framesDelivered 1000 [0, 500, 1500])).translationY = 40 ∧
      (runSpin 80 (framesDelivered 1000 [0, 500, 1500, 3200])).spinEndCalls
        = 1 := by
  refine ⟨rfl, ?_, ?_⟩ <;>
    norm_num [runSpin, animate, framesDelivered, spinEffectRegistersCleanup,
      easeInOutCubic, SPIN_DURATION_MS]

/-- Witness for C2 at a concrete spin: empty shuffled pool, the placeholder
entry as target, frames at 0 and 3000 ms. -/
theorem spin_settles_on_target_witness :
    (runSpin (finalPositionOf (buildReelWithTarget [] fallbackCharacter 0)
        fallbackCharacter) [0, 3000]).translationY =
      finalPositionOf (buildReelWithTarget [] fallbackCharacter 0)
        fallbackCharacter ∧
    (runSpin (finalPositionOf (buildReelWithTarget [] fallbackCharacter 0)
        fallbackCharacter) [0, 3000]).spinEndCalls = 1 ∧
    ∃ k : Nat,
      finalPositionOf (buildReelWithTarget [] fallbackCharacter 0)
          fallbackCharacter = (k : ℚ) * REEL_ITEM_HEIGHT ∧
      (extendReel (buildReelWithTarget [] fallbackCharacter 0)).getD k
        fallbackCharacter = fallbackCharacter :=
  spin_settles_on_target [] fallbackCharacter 0 0 [3000]
    ⟨3000, by norm_num, by norm_num [SPIN_DURATION_MS]⟩

section ReachabilityLemmas

/-- Case analysis of a draw trigger: either it refuses and returns the state
unchanged, or it marks some pool entry as target and starts spinning. -/
lemma handleSpin_cases (r : Nat) (s : AppState) :
    handleSpin r s = s ∨
      ∃ t ∈ availableCharacters s.historyS,
        handleSpin r s =
          { s with targetCharacterS := some t, isSpinningS := true } := by
  unfold handleSpin
  split
  · exact Or.inl rfl
  · dsimp only
    split
    · exact Or.inl rfl
    · exact Or.inr ⟨_, List.get_mem _ _ _, rfl⟩

/-- Every reachable state keeps only roster names in its history and only a
roster entry as target. -/
lemma reachable_stateOK (s : AppState) (h : Reachable s) :
    HistoryOK s ∧ TargetOK s := by
  induction h with
  | init =>
      constructor
      · intro e he; simp [initialState] at he
      · intro t hts; simp [initialState] at hts
  | @spin r s hr ih =>
      obtain ⟨hh, ht⟩ := ih
      rcases handleSpin_cases r s with heq | ⟨t, htmem, heq⟩ <;> rw [heq]
      · exact ⟨hh, ht⟩
      · refine ⟨fun e he => hh e he, fun u hu => ?_⟩
        have hu' : some t = some u := hu
        obtain rfl : t = u := Option.some.inj hu'
        exact availableCharacters_subset _ htmem
  | @spinEnd now s hr ih =>
      obtain ⟨hh, ht⟩ := ih
      cases hts : s.targetCharacterS with
      | none =>
          have hnoop : handleSpinEnd now s = s := by
            simp [handleSpinEnd, hts]
          rw [hnoop]
          exact ⟨hh, ht⟩
      | some t =>
          have htr : t ∈ CHARACTER_ROSTER := ht t hts
          constructor
          · intro e he
            have he' :
                e ∈ ({ characterName := t.name, timestamp := now } :
                  HistoryEntry) :: s.historyS := by
              simpa [handleSpinEnd, hts] using he
            rcases List.mem_cons.mp he' with rfl | hmem
            · exact List.mem_map_of_mem Character.name htr
            · exact hh e hmem
          · intro u hu
            have hu' : s.targetCharacterS = some u := by
              simpa [handleSpinEnd, hts] using hu
            rw [hts] at hu'
            obtain rfl : t = u := Option.some.inj hu'
            exact htr
  | @skip s hr ih =>
      obtain ⟨hh, _⟩ := ih
      exact ⟨fun e he => hh e he, fun u hu => by cases hu⟩
  | @purge s hr ih =>
      constructor
      · intro e he; cases he
      · intro u hu; cases hu
  | @reload s hr ih =>
      obtain ⟨hh, _⟩ := ih
      exact ⟨fun e he => hh e he, fun u hu => by cases hu⟩

end ReachabilityLemmas

/-- C5: in every state reachable by draw, commit, skip and purge, including a
restart that reloads the history persisted by an earlier session, every
history name is a roster name, and the derived pool is empty exactly when
every roster name occurs in the history at least once. -/
theorem reachable_history_in_roster_and_pool_empty_iff (s : AppState)
    (h : Reachable s) :
    (∀ e ∈ s.historyS, e.characterName ∈ rosterNames) ∧
      (availableCharacters s.historyS = [] ↔
        ∀ c ∈ CHARACTER_ROSTER,
          c.name ∈ s.historyS.map HistoryEntry.characterName) :=
  ⟨(reachable_stateOK s h).1, availableCharacters_eq_nil_iff s.historyS⟩

/-- Witness for C5 at the concrete state reached by one full draw from the
initial state. -/
theorem reachable_history_in_roster_witness :
    (∀ e ∈ (handleSpinEnd 7 (handleSpin 0 initialState)).historyS,
        e.characterName ∈ rosterNames) ∧
      (availableCharacters
          (handleSpinEnd 7 (handleSpin 0 initialState)).historyS = [] ↔
        ∀ c ∈ CHARACTER_ROSTER,
          c.name ∈ (handleSpinEnd 7 (handleSpin 0 initialState)).historyS.map
            HistoryEntry.characterName) :=
  reachable_history_in_roster_and_pool_empty_iff _
    (Reachable.spinEnd 7 (Reachable.spin 0 Reachable.init))
